import Mathlib

/-!
Verification of the preprocessing pipeline in `datasets/dataset_gen.py`
(Deep-Learn-Oil).  The script loads oil-well production series, removes
zeros and outliers, normalizes each series, slices it into input/output
windows, shuffles the window pairs, splits them 6:1:1 and serializes the
result.  We embed the numeric parts over the exact reals and the
structural parts polymorphically over the element type, and prove the
claimed properties of each step.
-/

namespace DatasetGen

/-- Parameter IN_MONTHS from dataset_gen.py. -/
def IN_MONTHS : Nat := 36

/-- Parameter OUT_MONTHS from dataset_gen.py. -/
def OUT_MONTHS : Nat := 12

/-- Parameter MIN_MONTHS from dataset_gen.py. -/
def MIN_MONTHS : Nat := IN_MONTHS + OUT_MONTHS

/-- Parameter STEP_MONTHS from dataset_gen.py. -/
def STEP_MONTHS : Nat := 24

/-- Flag REMOVE_ZEROS from dataset_gen.py. -/
def REMOVE_ZEROS : Bool := true

/-- Flag REMOVE_OUTLIERS from dataset_gen.py. -/
def REMOVE_OUTLIERS : Bool := true

/-- Flag SMOOTH_DATA from dataset_gen.py. -/
def SMOOTH_DATA : Bool := false

/-- Flag NORMALIZE_DATA from dataset_gen.py. -/
def NORMALIZE_DATA : Bool := true

/-- Parameter OUTLIER_Z from dataset_gen.py. -/
def OUTLIER_Z : ℝ := 4

/-- Parameter SMOOTH_LEN from dataset_gen.py. -/
def SMOOTH_LEN : Nat := 3

/-- Random seed SEED from dataset_gen.py. -/
def SEED : Nat := 42

/-- Python's xrange(0, stop, step): the multiples of step below stop. -/
def xrange0 (stop step : Nat) : List Nat :=
  (List.range ((stop + step - 1) / step)).map (fun k => k * step)

/-- Python slice l[a:b] on a list (for 0 ≤ a ≤ b): drop a, then keep b - a. -/
def pySlice {α : Type} (l : List α) (a b : Nat) : List α :=
  (l.drop a).take (b - a)

/-- The indices i of the windowing loop of preprocess_data that pass the
guard end_index < len(oils): i runs over xrange(0, len(oils), STEP_MONTHS)
and is kept when i + IN_MONTHS + OUT_MONTHS < n. -/
def chunkStarts (n : Nat) : List Nat :=
  (xrange0 n STEP_MONTHS).filter (fun i => decide (i + IN_MONTHS + OUT_MONTHS < n))

/-- The windowing loop of preprocess_data on one series: for each kept start
index i it emits the pair (oils[i : i+IN_MONTHS], oils[i+IN_MONTHS : i+IN_MONTHS+OUT_MONTHS]). -/
def makeChunks {α : Type} (oils : List α) : List (List α × List α) :=
  (chunkStarts oils.length).map (fun i =>
    (pySlice oils i (i + IN_MONTHS), pySlice oils (i + IN_MONTHS) (i + IN_MONTHS + OUT_MONTHS)))

/-- generate_data_sets from dataset_gen.py: splits the chunk arrays with the
6:1:1 ratio, all cut points computed from len(chunks[0]). -/
def generate_data_sets {α β : Type} (chunks : List α × List β) :
    (List α × List β) × (List α × List β) × (List α × List β) :=
  let n := chunks.1.length
  ((pySlice chunks.1 0 (6 * n / 8), pySlice chunks.2 0 (6 * n / 8)),
   (pySlice chunks.1 (6 * n / 8) (7 * n / 8), pySlice chunks.2 (6 * n / 8) (7 * n / 8)),
   (chunks.1.drop (7 * n / 8), chunks.2.drop (7 * n / 8)))

/-- Concrete window pair used to exercise the windowing loop on a series of
length 49 (one full window plus one extra reading). -/
def demoChunk : List Nat × List Nat :=
  ((List.range 49).take 36, ((List.range 49).drop 36).take 12)

/-- np.mean of a list of readings (exact real arithmetic; the empty list
gives 0/0 = 0 under Lean's division convention). -/
noncomputable def npMean (l : List ℝ) : ℝ := l.sum / l.length

/-- np.var of a list: the mean of the squared deviations from the mean. -/
noncomputable def npVar (l : List ℝ) : ℝ :=
  (l.map (fun x => (x - npMean l) ^ 2)).sum / l.length

/-- np.std of a list: the square root of npVar (population standard
deviation, as numpy computes it). -/
noncomputable def npStd (l : List ℝ) : ℝ := Real.sqrt (npVar l)

open Classical in
/-- The outlier-removal line of preprocess_data:
oils = oils[abs(oils - np.mean(oils)) <= OUTLIER_Z*np.std(oils)]. -/
noncomputable def removeOutliers (l : List ℝ) : List ℝ :=
  l.filter (fun x => decide (|x - npMean l| ≤ OUTLIER_Z * npStd l))

/-- The normalization line of preprocess_data:
oils = (oils - np.mean(oils))/np.std(oils). -/
noncomputable def normalizeOils (l : List ℝ) : List ℝ :=
  l.map (fun x => (x - npMean l) / npStd l)

/-- The kernel np.ones(SMOOTH_LEN)/SMOOTH_LEN used by the (disabled)
smoothing branch. -/
noncomputable def smooth_window : List ℝ :=
  List.replicate SMOOTH_LEN ((1 : ℝ) / (SMOOTH_LEN : ℝ))

/-- Full discrete convolution: entry k is the sum of a[j] * v[k - j]. -/
noncomputable def convolveFull (a v : List ℝ) : List ℝ :=
  (List.range (a.length + v.length - 1)).map (fun k =>
    ((List.range (k + 1)).map (fun j => a.getD j 0 * v.getD (k - j) 0)).sum)

/-- np.convolve with mode valid: the central part of the full convolution,
of length max - min + 1. -/
noncomputable def convolveValid (a v : List ℝ) : List ℝ :=
  ((convolveFull a v).drop (min a.length v.length - 1)).take
    (max a.length v.length - min a.length v.length + 1)

open Classical in
/-- The zero-removal branch of preprocess_data, guarded by REMOVE_ZEROS:
oils = np.array(filter(lambda oil: oil != 0, data[name])). -/
noncomputable def removeZerosStep (l : List ℝ) : List ℝ :=
  if REMOVE_ZEROS then l.filter (fun oil => decide (oil ≠ 0)) else l

/-- The outlier-removal branch of preprocess_data, guarded by REMOVE_OUTLIERS. -/
noncomputable def outlierStep (l : List ℝ) : List ℝ :=
  if REMOVE_OUTLIERS then removeOutliers l else l

/-- The smoothing branch of preprocess_data, guarded by SMOOTH_DATA (which
is False in the script, so this step is the identity in every run). -/
noncomputable def smoothStep (l : List ℝ) : List ℝ :=
  if SMOOTH_DATA then convolveValid smooth_window l else l

/-- The normalization branch of preprocess_data, guarded by NORMALIZE_DATA. -/
noncomputable def normalizeStep (l : List ℝ) : List ℝ :=
  if NORMALIZE_DATA then normalizeOils l else l

open Classical in
/-- The per-series body of preprocess_data: remove zeros, skip the series
when its standard deviation is zero, remove outliers, smooth, skip again
when the standard deviation is zero, normalize.  none models the continue
paths that drop the series. -/
noncomputable def preprocess_series (l : List ℝ) : Option (List ℝ) :=
  let oils1 := removeZerosStep l
  if npStd oils1 = 0 then none
  else
    let oils2 := smoothStep (outlierStep oils1)
    if npStd oils2 = 0 then none
    else some (normalizeStep oils2)

/-- The new_data dictionary built by preprocess_data: each surviving series
under its well name, in iteration order. -/
noncomputable def new_data (data : List (String × List ℝ)) : List (String × List ℝ) :=
  data.filterMap (fun p => (preprocess_series p.2).map (fun oils => (p.1, oils)))

/-- The pair list list(zip(x, y)) accumulated by the windowing loop of
preprocess_data over all surviving series, in iteration order. -/
noncomputable def all_pairs (data : List (String × List ℝ)) : List (List ℝ × List ℝ) :=
  ((data.filterMap (fun p => preprocess_series p.2)).map makeChunks).flatten

/-- preprocess_data from dataset_gen.py, with rnd.shuffle abstracted as the
function shuffle.  The zip(*shuffled) unpacking fails on an empty pair
list (need more than 0 values to unpack), modelled by none. -/
noncomputable def preprocess_data
    (shuffle : List (List ℝ × List ℝ) → List (List ℝ × List ℝ))
    (data : List (String × List ℝ)) :
    Option (List (String × List ℝ) × (List (List ℝ) × List (List ℝ))) :=
  let shuffled := shuffle (all_pairs data)
  if shuffled.isEmpty then none
  else some (new_data data, (shuffled.map Prod.fst, shuffled.map Prod.snd))

/-- The dictionary update of get_data: data[name] = [] when the key is
new, then data[name].append(oil). -/
def addReading (d : List (String × List ℚ)) (name : String) (oil : ℚ) :
    List (String × List ℚ) :=
  if d.any (fun p => p.1 = name) then
    d.map (fun p => if p.1 = name then (p.1, p.2 ++ [oil]) else p)
  else d ++ [(name, [oil])]

/-- The per-row body of get_data: name = row[3]; oil = float(row[4]).
A missing cell (IndexError) or an unparseable float cell (ValueError)
raises an uncaught exception, modelled by none; float parsing itself is
the abstract parseFloat. -/
def processRow (parseFloat : String → Option ℚ) (row : List String) :
    Option (String × ℚ) :=
  match row[3]?, row[4]? with
  | some name, some cell => (parseFloat cell).map (fun oil => (name, oil))
  | _, _ => none

/-- get_data from dataset_gen.py at the level of already-read CSV rows
(headers removed): each row is processed in order and any exception
aborts the whole run, so the fold is in the Option monad. -/
def get_data (parseFloat : String → Option ℚ) (rows : List (List String)) :
    Option (List (String × List ℚ)) :=
  rows.foldlM
    (fun d row => (processRow parseFloat row).map (fun p => addReading d p.1 p.2)) []

/-- Exchange of the entries at positions i and j, as random.shuffle does. -/
def listSwap {α : Type} (l : List α) (i j : Nat) : List α :=
  match l[i]?, l[j]? with
  | some a, some b => (l.set i b).set j a
  | _, _ => l

/-- Python's random.shuffle: for i in reversed(xrange(1, len(x))) pick
j = int(random() * (i+1)) and swap x[i] with x[j]; the generator state is
threaded through randBelow. -/
def pyShuffle {σ α : Type} (randBelow : σ → Nat → Nat × σ) (g : σ) (l : List α) :
    List α × σ :=
  ((List.range l.length).drop 1).reverse.foldl
    (fun p i =>
      let jg := randBelow p.2 (i + 1)
      (listSwap p.1 i jg.1, jg.2))
    (l, g)

/-- Model of the random module: rnd.seed builds a generator state from the
seed, and randBelow g n draws the next index below n, returning the new
state.  Any deterministic pseudo-random generator (such as the Mersenne
Twister the script really uses) is an instance. -/
structure RandModel (σ : Type) where
  seedFn : Nat → σ
  randBelow : σ → Nat → Nat × σ

/-- The main block of dataset_gen.py after loading: seed the generator
with SEED, preprocess the data (which shuffles the window pairs once),
then split the chunks with generate_data_sets.  The output collects the
new data dictionary, the shuffled chunk pair and the three data sets. -/
noncomputable def run_main {σ : Type} (R : RandModel σ)
    (data : List (String × List ℝ)) :
    Option (List (String × List ℝ) × (List (List ℝ) × List (List ℝ)) ×
      ((List (List ℝ) × List (List ℝ)) × (List (List ℝ) × List (List ℝ)) ×
        (List (List ℝ) × List (List ℝ)))) :=
  let g := R.seedFn SEED
  (preprocess_data (fun pairs => (pyShuffle R.randBelow g pairs).1) data).map
    (fun r => (r.1, r.2, generate_data_sets r.2))

/-- A production series with 25 readings of 1 and 25 readings of 3: it
survives every preprocessing step unchanged up to normalization and is
long enough to emit one window pair. -/
def demoSeries : List ℝ := List.replicate 25 1 ++ List.replicate 25 3

/-- A constant production series: its standard deviation is zero, so
preprocess_data drops it. -/
def demoConstSeries : List ℝ := List.replicate 10 5

/-- A one-well data dictionary whose series emits one window pair. -/
def demoData : List (String × List ℝ) := [("well", demoSeries)]

/-- A one-well data dictionary that emits no window pair at all. -/
def demoConstData : List (String × List ℝ) := [("flat", demoConstSeries)]

/-- A float parser that accepts nothing, exhibiting an unparseable cell. -/
def noParse : String → Option ℚ := fun _ => none

/-- A malformed row with four cells: row[4] raises IndexError. -/
def shortRow : List String := ["api", "date", "county", "wellname"]

/-- A row whose fifth cell is present but not parseable as a float. -/
def badFloatRow : List String := ["api", "date", "county", "wellname", "x"]

/-- The trivial generator model: the state is trivial and every draw is 0. -/
def trivialRand : RandModel Unit where
  seedFn := fun _ => ()
  randBelow := fun g _ => (0, g)

lemma mem_xrange0 (stop step i : Nat) (hstep : 0 < step) :
    i ∈ xrange0 stop step ↔ i % step = 0 ∧ i < stop := by
  unfold xrange0
  simp only [List.mem_map, List.mem_range]
  constructor
  · rintro ⟨k, hk, rfl⟩
    refine ⟨Nat.mul_mod_left k step, ?_⟩
    have h1 : k + 1 ≤ (stop + step - 1) / step := hk
    have h2 : (k + 1) * step ≤ stop + step - 1 :=
      (Nat.le_div_iff_mul_le hstep).mp h1
    rw [Nat.succ_mul] at h2
    omega
  · rintro ⟨hmod, hlt⟩
    refine ⟨i / step, ?_, Nat.div_mul_cancel (Nat.dvd_of_mod_eq_zero hmod)⟩
    have h1 : i + step ≤ stop + step - 1 := by omega
    have h2 : (i + step) / step ≤ (stop + step - 1) / step := Nat.div_le_div_right h1
    have h3 : (i + step) / step = i / step + 1 := Nat.add_div_right i hstep
    omega

lemma mem_chunkStarts (n i : Nat) :
    i ∈ chunkStarts n ↔ i % STEP_MONTHS = 0 ∧ i + IN_MONTHS + OUT_MONTHS < n := by
  unfold chunkStarts
  rw [List.mem_filter, mem_xrange0 n STEP_MONTHS i (by decide)]
  simp only [decide_eq_true_eq]
  constructor
  · rintro ⟨⟨h1, _⟩, h3⟩
    exact ⟨h1, h3⟩
  · rintro ⟨h1, h3⟩
    exact ⟨⟨h1, by omega⟩, h3⟩

lemma take_drop_partition {α : Type} (l : List α) (a b : Nat) (hab : a ≤ b) :
    l.take a ++ ((l.drop a).take (b - a) ++ l.drop b) = l := by
  have h1 : (l.drop a).drop (b - a) = l.drop b := by
    rw [List.drop_drop]
    congr 1
    omega
  calc l.take a ++ ((l.drop a).take (b - a) ++ l.drop b)
      = l.take a ++ ((l.drop a).take (b - a) ++ (l.drop a).drop (b - a)) := by rw [h1]
    _ = l.take a ++ l.drop a := by rw [List.take_append_drop]
    _ = l := List.take_append_drop a l

/-- C1: every input window appended to x by the windowing loop has length
exactly IN_MONTHS, every output window appended to y has length exactly
OUT_MONTHS, and each output window starts at the element immediately
following its paired input window (their concatenation is a contiguous
slice of the series of length IN_MONTHS + OUT_MONTHS). -/
theorem c1_window_shape {α : Type} (oils : List α) (p : List α × List α)
    (hp : p ∈ makeChunks oils) :
    p.1.length = IN_MONTHS ∧ p.2.length = OUT_MONTHS ∧
      ∃ i, p.1 = pySlice oils i (i + IN_MONTHS) ∧
        p.2 = pySlice oils (i + IN_MONTHS) (i + IN_MONTHS + OUT_MONTHS) ∧
        p.1 ++ p.2 = (oils.drop i).take (IN_MONTHS + OUT_MONTHS) := by
  unfold makeChunks at hp
  rw [List.mem_map] at hp
  obtain ⟨i, hi, rfl⟩ := hp
  rw [mem_chunkStarts] at hi
  obtain ⟨-, hlt⟩ := hi
  refine ⟨?_, ?_, i, rfl, rfl, ?_⟩
  · simp only [pySlice, List.length_take, List.length_drop]
    omega
  · simp only [pySlice, List.length_take, List.length_drop]
    omega
  · simp only [pySlice]
    have ha : i + IN_MONTHS - i = IN_MONTHS := by omega
    have hb : i + IN_MONTHS + OUT_MONTHS - (i + IN_MONTHS) = OUT_MONTHS := by omega
    rw [ha, hb, List.take_add]
    congr 1
    rw [List.drop_drop]

/-- C1 witness: on the series 0,...,48 the loop emits exactly the pair of
slices around index 0, whose shape is as claimed. -/
theorem c1_window_shape_witness :
    demoChunk ∈ makeChunks (List.range 49) ∧
      demoChunk.1.length = IN_MONTHS ∧ demoChunk.2.length = OUT_MONTHS ∧
      ∃ i, demoChunk.1 = pySlice (List.range 49) i (i + IN_MONTHS) ∧
        demoChunk.2 = pySlice (List.range 49) (i + IN_MONTHS) (i + IN_MONTHS + OUT_MONTHS) ∧
        demoChunk.1 ++ demoChunk.2 = ((List.range 49).drop i).take (IN_MONTHS + OUT_MONTHS) :=
  ⟨by decide, c1_window_shape (List.range 49) demoChunk (by decide)⟩

/-- C8: a window pair with start index i is emitted by the windowing loop of
preprocess_data iff i is a multiple of STEP_MONTHS and
i + IN_MONTHS + OUT_MONTHS is strictly below the series length; in
particular a series of length exactly MIN_MONTHS = 48 yields no window. -/
theorem c8_window_emission {α : Type} (n i : Nat) (oils : List α) :
    (i ∈ chunkStarts n ↔ i % STEP_MONTHS = 0 ∧ i + IN_MONTHS + OUT_MONTHS < n) ∧
      (oils.length = MIN_MONTHS → makeChunks oils = []) := by
  refine ⟨mem_chunkStarts n i, ?_⟩
  intro h
  unfold makeChunks
  rw [h]
  have he : chunkStarts MIN_MONTHS = [] := by decide
  rw [he]
  rfl

/-- C8 witness: start 24 is rejected for a series of length 100 because
24 + 48 is not below 100 is false... rather, the equivalence is checked at
n = 100, i = 24, and a series of length exactly 48 yields no window. -/
theorem c8_window_emission_witness :
    (24 ∈ chunkStarts 100 ↔ 24 % STEP_MONTHS = 0 ∧ 24 + IN_MONTHS + OUT_MONTHS < 100) ∧
      (List.range MIN_MONTHS).length = MIN_MONTHS ∧
      makeChunks (List.range MIN_MONTHS) = [] :=
  ⟨(c8_window_emission 100 24 (List.range MIN_MONTHS)).1, by decide,
   (c8_window_emission 100 24 (List.range MIN_MONTHS)).2 (by decide)⟩

/-- C4: generate_data_sets splits the chunk pair in order: the training set
is the first 6n/8 chunks, the validation set the chunks from 6n/8 to 7n/8,
the test set the rest; the three parts concatenate back to the original
arrays (so every chunk lands in exactly one set). -/
theorem c4_generate_data_sets {α β : Type} (chunks : List α × List β) (n : Nat)
    (h1 : chunks.1.length = n) (h2 : chunks.2.length = n) :
    (generate_data_sets chunks).1.1 = chunks.1.take (6 * n / 8) ∧
      (generate_data_sets chunks).2.1.1 = (chunks.1.drop (6 * n / 8)).take (7 * n / 8 - 6 * n / 8) ∧
      (generate_data_sets chunks).2.2.1 = chunks.1.drop (7 * n / 8) ∧
      (generate_data_sets chunks).1.1 ++
        ((generate_data_sets chunks).2.1.1 ++ (generate_data_sets chunks).2.2.1) = chunks.1 ∧
      (generate_data_sets chunks).1.2 ++
        ((generate_data_sets chunks).2.1.2 ++ (generate_data_sets chunks).2.2.2) = chunks.2 ∧
      (generate_data_sets chunks).1.1.length = 6 * n / 8 ∧
      (generate_data_sets chunks).2.1.1.length = 7 * n / 8 - 6 * n / 8 ∧
      (generate_data_sets chunks).2.2.1.length = n - 7 * n / 8 := by
  obtain ⟨cx, cy⟩ := chunks
  simp only at h1 h2
  subst h1
  have hab : 6 * cx.length / 8 ≤ 7 * cx.length / 8 := by omega
  refine ⟨?_, ?_, ?_, ?_, ?_, ?_, ?_, ?_⟩ <;>
    simp only [generate_data_sets, pySlice, List.drop_zero, Nat.sub_zero, List.length_take,
      List.length_drop] <;>
    first
      | rfl
      | exact take_drop_partition cx _ _ hab
      | exact take_drop_partition cy _ _ hab
      | omega

/-- C4 witness: the split of ten chunks is 7 / 1 / 2 and partitions them. -/
theorem c4_generate_data_sets_witness :
    (List.range 10).length = 10 ∧
      ((generate_data_sets (List.range 10, List.range 10)).1.1 = (List.range 10).take (6 * 10 / 8) ∧
        (generate_data_sets (List.range 10, List.range 10)).2.1.1 =
          ((List.range 10).drop (6 * 10 / 8)).take (7 * 10 / 8 - 6 * 10 / 8) ∧
        (generate_data_sets (List.range 10, List.range 10)).2.2.1 = (List.range 10).drop (7 * 10 / 8) ∧
        (generate_data_sets (List.range 10, List.range 10)).1.1 ++
          ((generate_data_sets (List.range 10, List.range 10)).2.1.1 ++
            (generate_data_sets (List.range 10, List.range 10)).2.2.1) = List.range 10 ∧
        (generate_data_sets (List.range 10, List.range 10)).1.2 ++
          ((generate_data_sets (List.range 10, List.range 10)).2.1.2 ++
            (generate_data_sets (List.range 10, List.range 10)).2.2.2) = List.range 10 ∧
        (generate_data_sets (List.range 10, List.range 10)).1.1.length = 6 * 10 / 8 ∧
        (generate_data_sets (List.range 10, List.range 10)).2.1.1.length = 7 * 10 / 8 - 6 * 10 / 8 ∧
        (generate_data_sets (List.range 10, List.range 10)).2.2.1.length = 10 - 7 * 10 / 8) :=
  ⟨by decide, c4_generate_data_sets (List.range 10, List.range 10) 10 (by decide) (by decide)⟩

lemma sum_map_sub_const (l : List ℝ) (c : ℝ) :
    (l.map (fun x => x - c)).sum = l.sum - l.length * c := by
  induction l with
  | nil => simp
  | cons a t ih =>
    simp only [List.map_cons, List.sum_cons, List.length_cons, ih]
    push_cast
    ring

lemma sum_map_div_const (l : List ℝ) (f : ℝ → ℝ) (c : ℝ) :
    (l.map (fun x => f x / c)).sum = (l.map f).sum / c := by
  induction l with
  | nil => simp
  | cons a t ih =>
    simp only [List.map_cons, List.sum_cons, ih]
    rw [add_div]

lemma npVar_nonneg (l : List ℝ) : 0 ≤ npVar l := by
  unfold npVar
  apply div_nonneg
  · apply List.sum_nonneg
    intro x hx
    rw [List.mem_map] at hx
    obtain ⟨a, -, rfl⟩ := hx
    positivity
  · positivity

lemma npVar_pos_of_npStd_ne (l : List ℝ) (h : npStd l ≠ 0) : 0 < npVar l := by
  rcases lt_or_eq_of_le (npVar_nonneg l) with hlt | heq
  · exact hlt
  · exact absurd (by rw [npStd, ← heq, Real.sqrt_zero]) h

lemma length_pos_of_npStd_ne (l : List ℝ) (h : npStd l ≠ 0) : 0 < l.length := by
  cases l with
  | nil =>
    exact absurd (by simp [npStd, npVar]) h
  | cons a t => simp

lemma sum_eq_length_mul_npMean (l : List ℝ) (h : (l.length : ℝ) ≠ 0) :
    l.sum = l.length * npMean l := by
  unfold npMean
  field_simp

lemma sq_npStd (l : List ℝ) : npStd l ^ 2 = npVar l :=
  Real.sq_sqrt (npVar_nonneg l)

/-- C2: when the standard deviation checked just before normalization is
nonzero, the normalized series (oils - mean)/std has mean zero and unit
variance. -/
theorem c2_normalization (l : List ℝ) (h : npStd l ≠ 0) :
    npMean (normalizeOils l) = 0 ∧ npVar (normalizeOils l) = 1 := by
  have hn : (0 : ℝ) < (l.length : ℝ) := by
    exact_mod_cast length_pos_of_npStd_ne l h
  have hn' : (l.length : ℝ) ≠ 0 := ne_of_gt hn
  have hvar : 0 < npVar l := npVar_pos_of_npStd_ne l h
  have hsum0 : (normalizeOils l).sum = 0 := by
    unfold normalizeOils
    rw [sum_map_div_const l (fun x => x - npMean l) (npStd l),
      sum_map_sub_const l (npMean l),
      sum_eq_length_mul_npMean l hn']
    simp
  have hmean0 : npMean (normalizeOils l) = 0 := by
    unfold npMean
    rw [hsum0, zero_div]
  refine ⟨hmean0, ?_⟩
  unfold npVar
  rw [hmean0]
  unfold normalizeOils
  rw [List.length_map, List.map_map]
  have hfun : ((fun y => (y - 0) ^ 2) ∘ fun x => (x - npMean l) / npStd l) =
      fun x => ((x - npMean l) ^ 2) / (npStd l ^ 2) := by
    funext x
    simp only [Function.comp, sub_zero, div_pow]
  rw [hfun, sum_map_div_const l (fun x => (x - npMean l) ^ 2) (npStd l ^ 2), sq_npStd]
  have hsum : (l.map (fun x => (x - npMean l) ^ 2)).sum = npVar l * l.length := by
    unfold npVar
    rw [div_mul_cancel₀ _ hn']
  rw [hsum, mul_comm, mul_div_assoc, div_self hvar.ne', mul_one, div_self hn']

lemma npMean_pair : npMean ([0, 2] : List ℝ) = 1 := by
  unfold npMean
  norm_num

lemma npVar_pair : npVar ([0, 2] : List ℝ) = 1 := by
  unfold npVar
  rw [npMean_pair]
  norm_num

lemma npStd_pair : npStd ([0, 2] : List ℝ) = 1 := by
  rw [npStd, npVar_pair, Real.sqrt_one]

/-- C2 witness: the series 0, 2 has standard deviation 1, and its
normalization has mean zero and unit variance. -/
theorem c2_normalization_witness :
    npStd ([0, 2] : List ℝ) ≠ 0 ∧
      npMean (normalizeOils ([0, 2] : List ℝ)) = 0 ∧
      npVar (normalizeOils ([0, 2] : List ℝ)) = 1 := by
  have h : npStd ([0, 2] : List ℝ) ≠ 0 := by
    rw [npStd_pair]
    norm_num
  exact ⟨h, c2_normalization [0, 2] h⟩

/-- C3: every reading kept by the outlier-removal step deviates from the
mean of the incoming series by at most OUTLIER_Z standard deviations of
that series, and the kept readings form a sublist (so they stay in their
original relative order). -/
theorem c3_outlier_removal (l : List ℝ) :
    (∀ x ∈ removeOutliers l, |x - npMean l| ≤ OUTLIER_Z * npStd l) ∧
      (removeOutliers l).Sublist l := by
  constructor
  · intro x hx
    unfold removeOutliers at hx
    rw [List.mem_filter, decide_eq_true_eq] at hx
    exact hx.2
  · exact List.filter_sublist l

lemma removeOutliers_pair : removeOutliers ([0, 2] : List ℝ) = [0, 2] := by
  unfold removeOutliers
  rw [List.filter_eq_self]
  intro a ha
  rw [decide_eq_true_eq, npMean_pair, npStd_pair]
  simp only [List.mem_cons, List.not_mem_nil, or_false] at ha
  rcases ha with rfl | rfl <;> norm_num [OUTLIER_Z, abs_le]

/-- C3 witness: on the series 0, 2 the step keeps the reading 0, which is
within 4 standard deviations of the mean, and keeps order. -/
theorem c3_outlier_removal_witness :
    (0 : ℝ) ∈ removeOutliers ([0, 2] : List ℝ) ∧
      |(0 : ℝ) - npMean ([0, 2] : List ℝ)| ≤ OUTLIER_Z * npStd ([0, 2] : List ℝ) ∧
      (removeOutliers ([0, 2] : List ℝ)).Sublist [0, 2] := by
  have hmem : (0 : ℝ) ∈ removeOutliers ([0, 2] : List ℝ) := by
    rw [removeOutliers_pair]
    simp
  exact ⟨hmem, (c3_outlier_removal [0, 2]).1 0 hmem, (c3_outlier_removal [0, 2]).2⟩

lemma removeZerosStep_of_ne (l : List ℝ) (h : ∀ x ∈ l, x ≠ 0) :
    removeZerosStep l = l := by
  unfold removeZerosStep
  rw [if_pos (show REMOVE_ZEROS = true from rfl), List.filter_eq_self]
  intro a ha
  rw [decide_eq_true_eq]
  exact h a ha

lemma outlierStep_of_within (l : List ℝ)
    (h : ∀ x ∈ l, |x - npMean l| ≤ OUTLIER_Z * npStd l) :
    outlierStep l = l := by
  unfold outlierStep
  rw [if_pos (show REMOVE_OUTLIERS = true from rfl)]
  unfold removeOutliers
  rw [List.filter_eq_self]
  intro a ha
  rw [decide_eq_true_eq]
  exact h a ha

lemma smoothStep_eq (l : List ℝ) : smoothStep l = l := by
  unfold smoothStep
  rw [if_neg (by simp [SMOOTH_DATA])]

lemma normalizeStep_eq (l : List ℝ) : normalizeStep l = normalizeOils l := by
  unfold normalizeStep
  rw [if_pos (show NORMALIZE_DATA = true from rfl)]

lemma preprocess_series_eval (l : List ℝ)
    (h0 : ∀ x ∈ l, x ≠ 0)
    (hout : ∀ x ∈ l, |x - npMean l| ≤ OUTLIER_Z * npStd l)
    (hstd : npStd l ≠ 0) :
    preprocess_series l = some (normalizeOils l) := by
  simp only [preprocess_series]
  rw [removeZerosStep_of_ne l h0, outlierStep_of_within l hout, smoothStep_eq l,
    normalizeStep_eq l, if_neg hstd, if_neg hstd]

/-- C10: whenever preprocess_data reaches the normalization line for a
series, the divisor np.std of the series at that point is nonzero, because
series with zero standard deviation were skipped both before and after the
outlier-removal and smoothing steps; the emitted series is exactly the
normalization of the series at that point. -/
theorem c10_normalization_guard (l out : List ℝ)
    (h : preprocess_series l = some out) :
    npStd (smoothStep (outlierStep (removeZerosStep l))) ≠ 0 ∧
      out = normalizeStep (smoothStep (outlierStep (removeZerosStep l))) := by
  simp only [preprocess_series] at h
  by_cases h1 : npStd (removeZerosStep l) = 0
  · rw [if_pos h1] at h
    exact absurd h (by simp)
  · rw [if_neg h1] at h
    by_cases h2 : npStd (smoothStep (outlierStep (removeZerosStep l))) = 0
    · rw [if_pos h2] at h
      exact absurd h (by simp)
    · rw [if_neg h2] at h
      exact ⟨h2, (Option.some.inj h).symm⟩

lemma npMean_13 : npMean ([1, 3] : List ℝ) = 2 := by
  unfold npMean
  norm_num

lemma npVar_13 : npVar ([1, 3] : List ℝ) = 1 := by
  unfold npVar
  rw [npMean_13]
  norm_num

lemma npStd_13 : npStd ([1, 3] : List ℝ) = 1 := by
  rw [npStd, npVar_13, Real.sqrt_one]

lemma preprocess_series_13 :
    preprocess_series ([1, 3] : List ℝ) = some (normalizeOils ([1, 3] : List ℝ)) := by
  apply preprocess_series_eval
  · intro a ha
    simp only [List.mem_cons, List.not_mem_nil, or_false] at ha
    rcases ha with rfl | rfl <;> norm_num
  · intro a ha
    rw [npMean_13, npStd_13]
    simp only [List.mem_cons, List.not_mem_nil, or_false] at ha
    rcases ha with rfl | rfl <;> norm_num [OUTLIER_Z, abs_le]
  · rw [npStd_13]
    norm_num

/-- C10 witness: the series 1, 3 reaches normalization, and the standard
deviation used as the divisor there is nonzero. -/
theorem c10_normalization_guard_witness :
    preprocess_series ([1, 3] : List ℝ) = some (normalizeOils ([1, 3] : List ℝ)) ∧
      npStd (smoothStep (outlierStep (removeZerosStep ([1, 3] : List ℝ)))) ≠ 0 :=
  ⟨preprocess_series_13,
   (c10_normalization_guard [1, 3] (normalizeOils [1, 3]) preprocess_series_13).1⟩

lemma zip_fst_snd {α β : Type} (l : List (α × β)) :
    (l.map Prod.fst).zip (l.map Prod.snd) = l := by
  rw [← List.unzip_fst, ← List.unzip_snd, List.zip_unzip]

/-- C5: when the windowing loop emitted at least one pair, preprocess_data
returns a pair sequence that is a permutation of the loop's pair sequence:
the shuffle step keeps the multiset of (input window, output window) pairs,
and each input window stays zipped to its original output window. -/
theorem c5_shuffle_preserves_pairs
    (shuffle : List (List ℝ × List ℝ) → List (List ℝ × List ℝ))
    (data : List (String × List ℝ))
    (hs : ∀ pairs, (shuffle pairs).Perm pairs)
    (hne : all_pairs data ≠ []) :
    ∃ nd x y, preprocess_data shuffle data = some (nd, (x, y)) ∧
      (x.zip y).Perm (all_pairs data) := by
  have hperm := hs (all_pairs data)
  have hne2 : shuffle (all_pairs data) ≠ [] := by
    intro h0
    rw [h0] at hperm
    exact hne (List.Perm.eq_nil hperm.symm)
  refine ⟨new_data data, (shuffle (all_pairs data)).map Prod.fst,
    (shuffle (all_pairs data)).map Prod.snd, ?_, ?_⟩
  · simp only [preprocess_data]
    rw [if_neg (by rw [List.isEmpty_iff]; exact hne2)]
  · rw [zip_fst_snd]
    exact hperm

lemma demoSeries_mem (x : ℝ) (hx : x ∈ demoSeries) : x = 1 ∨ x = 3 := by
  unfold demoSeries at hx
  rw [List.mem_append] at hx
  rcases hx with h | h <;> rw [List.mem_replicate] at h
  · exact Or.inl h.2
  · exact Or.inr h.2

lemma demoSeries_length : demoSeries.length = 50 := by
  unfold demoSeries
  simp

lemma npMean_demo : npMean demoSeries = 2 := by
  unfold npMean
  rw [demoSeries_length]
  unfold demoSeries
  rw [List.sum_append, List.sum_replicate, List.sum_replicate]
  norm_num [nsmul_eq_mul]

lemma npVar_demo : npVar demoSeries = 1 := by
  unfold npVar
  rw [npMean_demo, demoSeries_length]
  unfold demoSeries
  rw [List.map_append, List.map_replicate, List.map_replicate, List.sum_append,
    List.sum_replicate, List.sum_replicate]
  norm_num [nsmul_eq_mul]

lemma npStd_demo : npStd demoSeries = 1 := by
  rw [npStd, npVar_demo, Real.sqrt_one]

lemma preprocess_series_demo :
    preprocess_series demoSeries = some (normalizeOils demoSeries) := by
  apply preprocess_series_eval
  · intro a ha
    rcases demoSeries_mem a ha with rfl | rfl <;> norm_num
  · intro a ha
    rw [npMean_demo, npStd_demo]
    rcases demoSeries_mem a ha with rfl | rfl <;> norm_num [OUTLIER_Z, abs_le]
  · rw [npStd_demo]
    norm_num

lemma all_pairs_demoData : all_pairs demoData = makeChunks (normalizeOils demoSeries) := by
  simp [all_pairs, demoData, preprocess_series_demo]

lemma all_pairs_demoData_ne : all_pairs demoData ≠ [] := by
  rw [all_pairs_demoData]
  have hlen : (normalizeOils demoSeries).length = 50 := by
    unfold normalizeOils
    rw [List.length_map, demoSeries_length]
  unfold makeChunks
  rw [hlen]
  have hcs : chunkStarts 50 = [0] := by decide
  rw [hcs]
  simp

/-- C5 witness: with the identity shuffle (a permutation) and a one-well
dictionary emitting one window pair, preprocess_data returns that pair
sequence up to permutation. -/
theorem c5_shuffle_preserves_pairs_witness :
    (∀ pairs : List (List ℝ × List ℝ), (id pairs).Perm pairs) ∧
      all_pairs demoData ≠ [] ∧
      ∃ nd x y, preprocess_data id demoData = some (nd, (x, y)) ∧
        (x.zip y).Perm (all_pairs demoData) :=
  ⟨fun pairs => List.Perm.refl pairs, all_pairs_demoData_ne,
   c5_shuffle_preserves_pairs id demoData (fun pairs => List.Perm.refl pairs)
     all_pairs_demoData_ne⟩

/-- C9: when the windowing loop emits no pair at all, preprocess_data does
not return empty chunk arrays: the unpacking x, y = zip(*shuffled) of the
empty shuffled list raises, modelled by the none result. -/
theorem c9_zero_windows_crash
    (shuffle : List (List ℝ × List ℝ) → List (List ℝ × List ℝ))
    (data : List (String × List ℝ))
    (hs : ∀ pairs, (shuffle pairs).Perm pairs)
    (h0 : all_pairs data = []) :
    preprocess_data shuffle data = none := by
  have hnil : shuffle (all_pairs data) = [] := by
    rw [h0]
    exact List.Perm.eq_nil (hs [])
  simp only [preprocess_data]
  rw [hnil]
  rfl

lemma preprocess_series_const : preprocess_series demoConstSeries = none := by
  have h1 : removeZerosStep demoConstSeries = demoConstSeries := by
    apply removeZerosStep_of_ne
    intro x hx
    unfold demoConstSeries at hx
    rw [List.mem_replicate] at hx
    rw [hx.2]
    norm_num
  have hm : npMean demoConstSeries = 5 := by
    unfold npMean demoConstSeries
    rw [List.sum_replicate, List.length_replicate]
    norm_num [nsmul_eq_mul]
  have hv : npVar demoConstSeries = 0 := by
    unfold npVar
    rw [hm]
    unfold demoConstSeries
    rw [List.map_replicate, List.sum_replicate, List.length_replicate]
    norm_num [nsmul_eq_mul]
  have h2 : npStd demoConstSeries = 0 := by
    rw [npStd, hv, Real.sqrt_zero]
  simp only [preprocess_series]
  rw [h1, if_pos h2]

lemma all_pairs_const : all_pairs demoConstData = [] := by
  simp [all_pairs, demoConstData, preprocess_series_const]

/-- C9 witness: a dictionary holding one constant series emits no window,
and preprocess_data with the identity shuffle yields the crash value none. -/
theorem c9_zero_windows_crash_witness :
    (∀ pairs : List (List ℝ × List ℝ), (id pairs).Perm pairs) ∧
      all_pairs demoConstData = [] ∧
      preprocess_data id demoConstData = none :=
  ⟨fun pairs => List.Perm.refl pairs, all_pairs_const,
   c9_zero_windows_crash id demoConstData (fun pairs => List.Perm.refl pairs)
     all_pairs_const⟩

/-- C7: the pipeline is deterministic.  The main block seeds the generator
with the constant SEED before preprocessing, so its whole behaviour is a
function of the input dictionary and the generator model: two runs on
equal dictionaries return equal results, in particular equal shuffled
chunks and equal train/validation/test sets. -/
theorem c7_determinism {σ : Type} (R : RandModel σ)
    (d1 d2 : List (String × List ℝ)) (h : d1 = d2) :
    run_main R d1 = run_main R d2 ∧
      (run_main R d1).map (fun r => r.2.1) = (run_main R d2).map (fun r => r.2.1) ∧
      (run_main R d1).map (fun r => r.2.2) = (run_main R d2).map (fun r => r.2.2) := by
  subst h
  exact ⟨rfl, rfl, rfl⟩

/-- C7 witness: two runs of the main block on the same concrete dictionary
with the same generator model coincide. -/
theorem c7_determinism_witness :
    demoConstData = demoConstData ∧
      run_main trivialRand demoConstData = run_main trivialRand demoConstData :=
  ⟨rfl, (c7_determinism trivialRand demoConstData demoConstData rfl).1⟩

/-- C6: get_data crashes on a malformed row instead of recovering: a row
with fewer than 5 cells hits an IndexError at row[4], and a row whose
fifth cell does not parse as a float hits a ValueError in float(); either
uncaught exception aborts the whole run (the none result), with no
structured error handling anywhere. -/
theorem c6_get_data_crash (parseFloat : String → Option ℚ)
    (hbad : parseFloat ("x") = none) :
    get_data parseFloat [shortRow] = none ∧
      get_data parseFloat [badFloatRow] = none := by
  refine ⟨rfl, ?_⟩
  have h1 : processRow parseFloat badFloatRow = none := by
    show (parseFloat ("x")).map (fun oil => ((("wellname" : String)), oil)) = none
    rw [hbad]
    rfl
  simp [get_data, h1]

/-- C6 witness: with a parser that rejects the cell, both malformed rows
abort get_data. -/
theorem c6_get_data_crash_witness :
    noParse ("x") = none ∧
      get_data noParse [shortRow] = none ∧
      get_data noParse [badFloatRow] = none :=
  ⟨rfl, (c6_get_data_crash noParse rfl).1, (c6_get_data_crash noParse rfl).2⟩

end DatasetGen
